import Mathlib

/-!
Verification of the editor-settings resolution core
(`crates/editor/src/editor_settings.rs`).

The development shallowly embeds:
* the resolved configuration type `EditorSettings` and its nested groups;
* the optional-per-field document type `EditorSettingsContent` and its
  nested group contents;
* string decoding of the serde enumerations, including the
  `#[serde(alias = "cmd", alias = "ctrl")]` aliases and the
  `rename_all = "snake_case"` canonical spellings;
* the layered merge (`SettingsSources::json_merge`, lives in the external
  `settings` crate and is modelled from the design document: last-wins per
  leaf field, recursing into nested groups, never replacing a partially
  specified group wholesale);
* the resolver: converting the fully merged document into `EditorSettings`,
  mirroring serde derive semantics of the struct declarations (every field
  is required except `double_click_in_multibuffer`, which carries
  `#[serde(default)]`).

Machine integers (`u32`, `u64`) are modelled as `Nat` with an explicit range
check at decode time; the two `f32` fields carry no arithmetic in this code,
so their values are modelled as `Rat` and simply passed through.
-/

namespace Zed

/-- Enum `CurrentLineHighlight` (canonical snake_case spellings:
none, gutter, line, all). -/
inductive CurrentLineHighlight
  | None
  | Gutter
  | Line
  | All
  deriving DecidableEq

/-- Enum `SeedQuerySetting` (always, selection, never). -/
inductive SeedQuerySetting
  | Always
  | Selection
  | Never
  deriving DecidableEq

/-- Enum `DoubleClickInMultibuffer` (select, open); `Select` is the
`#[default]` variant. -/
inductive DoubleClickInMultibuffer
  | Select
  | Open
  deriving DecidableEq

/-- Enum `ShowScrollbar` (auto, system, always, never). -/
inductive ShowScrollbar
  | Auto
  | System
  | Always
  | Never
  deriving DecidableEq

/-- Enum `MultiCursorModifier` (alt, cmd_or_ctrl); `CmdOrCtrl` additionally
accepts the legacy aliases "cmd" and "ctrl". -/
inductive MultiCursorModifier
  | Alt
  | CmdOrCtrl
  deriving DecidableEq

/-- Enum `ScrollBeyondLastLine` (off, one_page, vertical_scroll_margin). -/
inductive ScrollBeyondLastLine
  | Off
  | OnePage
  | VerticalScrollMargin
  deriving DecidableEq

/-- Resolved nested group `Jupyter`. -/
structure Jupyter where
  enabled : Bool
  deriving DecidableEq

/-- Resolved nested group `Toolbar`. -/
structure Toolbar where
  breadcrumbs : Bool
  quick_actions : Bool
  selections_menu : Bool
  deriving DecidableEq

/-- Resolved nested group `Scrollbar`. -/
structure Scrollbar where
  «show» : ShowScrollbar
  git_diff : Bool
  selected_symbol : Bool
  search_results : Bool
  diagnostics : Bool
  cursors : Bool
  deriving DecidableEq

/-- Resolved nested group `Gutter`. -/
structure Gutter where
  line_numbers : Bool
  code_actions : Bool
  runnables : Bool
  folds : Bool
  deriving DecidableEq

/-- Resolved configuration `EditorSettings`: every field concrete, field
order as declared in the source. -/
structure EditorSettings where
  cursor_blink : Bool
  current_line_highlight : CurrentLineHighlight
  hover_popover_enabled : Bool
  show_completions_on_input : Bool
  show_completion_documentation : Bool
  completion_documentation_secondary_query_debounce : Nat
  use_on_type_format : Bool
  toolbar : Toolbar
  scrollbar : Scrollbar
  gutter : Gutter
  scroll_beyond_last_line : ScrollBeyondLastLine
  vertical_scroll_margin : Rat
  scroll_sensitivity : Rat
  relative_line_numbers : Bool
  seed_search_query_from_cursor : SeedQuerySetting
  multi_cursor_modifier : MultiCursorModifier
  redact_private_values : Bool
  expand_excerpt_lines : Nat
  middle_click_paste : Bool
  double_click_in_multibuffer : DoubleClickInMultibuffer
  search_wrap : Bool
  auto_signature_help : Bool
  show_signature_help_after_edits : Bool
  jupyter : Jupyter
  show_diagnostics_inline : Bool
  deriving DecidableEq

/-- Document-side nested group `JupyterContent` (every field optional). -/
structure JupyterContent where
  enabled : Option Bool := none
  deriving DecidableEq

/-- Document-side nested group `ToolbarContent`. -/
structure ToolbarContent where
  breadcrumbs : Option Bool := none
  quick_actions : Option Bool := none
  selections_menu : Option Bool := none
  deriving DecidableEq

/-- Document-side nested group `ScrollbarContent` (field order as in the
source, which differs from the resolved `Scrollbar`). -/
structure ScrollbarContent where
  «show» : Option ShowScrollbar := none
  git_diff : Option Bool := none
  search_results : Option Bool := none
  selected_symbol : Option Bool := none
  diagnostics : Option Bool := none
  cursors : Option Bool := none
  deriving DecidableEq

/-- Document-side nested group `GutterContent`. -/
structure GutterContent where
  line_numbers : Option Bool := none
  code_actions : Option Bool := none
  runnables : Option Bool := none
  folds : Option Bool := none
  deriving DecidableEq

/-- Document type `EditorSettingsContent`: mirrors `EditorSettings` with
every field optional (the struct derives `Default`, so the empty document
has every field absent). -/
structure EditorSettingsContent where
  cursor_blink : Option Bool := none
  current_line_highlight : Option CurrentLineHighlight := none
  hover_popover_enabled : Option Bool := none
  show_completions_on_input : Option Bool := none
  show_completion_documentation : Option Bool := none
  completion_documentation_secondary_query_debounce : Option Nat := none
  use_on_type_format : Option Bool := none
  toolbar : Option ToolbarContent := none
  scrollbar : Option ScrollbarContent := none
  gutter : Option GutterContent := none
  scroll_beyond_last_line : Option ScrollBeyondLastLine := none
  vertical_scroll_margin : Option Rat := none
  scroll_sensitivity : Option Rat := none
  relative_line_numbers : Option Bool := none
  seed_search_query_from_cursor : Option SeedQuerySetting := none
  multi_cursor_modifier : Option MultiCursorModifier := none
  redact_private_values : Option Bool := none
  expand_excerpt_lines : Option Nat := none
  middle_click_paste : Option Bool := none
  double_click_in_multibuffer : Option DoubleClickInMultibuffer := none
  search_wrap : Option Bool := none
  auto_signature_help : Option Bool := none
  show_signature_help_after_edits : Option Bool := none
  jupyter : Option JupyterContent := none
  show_diagnostics_inline : Option Bool := none
  deriving DecidableEq

/-- Structured resolution error: `missingField` mirrors serde's
missing-field error, `invalidEnumValue` an unknown enum spelling, and
`outOfDomainValue` an integer outside its unsigned range. -/
inductive ResolutionError
  | missingField (field : String)
  | invalidEnumValue (field value : String)
  | outOfDomainValue (field : String) (value : Int)
  deriving DecidableEq

/-- String decoding of `CurrentLineHighlight` per
`#[serde(rename_all = "snake_case")]`. -/
def CurrentLineHighlight.fromString (s : String) :
    Except ResolutionError CurrentLineHighlight :=
  if s = "none" then .ok .None
  else if s = "gutter" then .ok .Gutter
  else if s = "line" then .ok .Line
  else if s = "all" then .ok .All
  else .error (.invalidEnumValue "current_line_highlight" s)

/-- String decoding of `SeedQuerySetting`. -/
def SeedQuerySetting.fromString (s : String) :
    Except ResolutionError SeedQuerySetting :=
  if s = "always" then .ok .Always
  else if s = "selection" then .ok .Selection
  else if s = "never" then .ok .Never
  else .error (.invalidEnumValue "seed_search_query_from_cursor" s)

/-- String decoding of `DoubleClickInMultibuffer`. -/
def DoubleClickInMultibuffer.fromString (s : String) :
    Except ResolutionError DoubleClickInMultibuffer :=
  if s = "select" then .ok .Select
  else if s = "open" then .ok .Open
  else .error (.invalidEnumValue "double_click_in_multibuffer" s)

/-- String decoding of `ShowScrollbar`. -/
def ShowScrollbar.fromString (s : String) :
    Except ResolutionError ShowScrollbar :=
  if s = "auto" then .ok .Auto
  else if s = "system" then .ok .System
  else if s = "always" then .ok .Always
  else if s = "never" then .ok .Never
  else .error (.invalidEnumValue "scrollbar.show" s)

/-- String decoding of `MultiCursorModifier`, including the declared legacy
aliases `#[serde(alias = "cmd", alias = "ctrl")]` on `CmdOrCtrl`. -/
def MultiCursorModifier.fromString (s : String) :
    Except ResolutionError MultiCursorModifier :=
  if s = "alt" then .ok .Alt
  else if s = "cmd_or_ctrl" then .ok .CmdOrCtrl
  else if s = "cmd" then .ok .CmdOrCtrl
  else if s = "ctrl" then .ok .CmdOrCtrl
  else .error (.invalidEnumValue "multi_cursor_modifier" s)

/-- String decoding of `ScrollBeyondLastLine`. -/
def ScrollBeyondLastLine.fromString (s : String) :
    Except ResolutionError ScrollBeyondLastLine :=
  if s = "off" then .ok .Off
  else if s = "one_page" then .ok .OnePage
  else if s = "vertical_scroll_margin" then .ok .VerticalScrollMargin
  else .error (.invalidEnumValue "scroll_beyond_last_line" s)

/-- Raw document form of the scrollbar group: the enumerated `show` field is
still an undecoded string. -/
structure ScrollbarRaw where
  «show» : Option String := none
  git_diff : Option Bool := none
  search_results : Option Bool := none
  selected_symbol : Option Bool := none
  diagnostics : Option Bool := none
  cursors : Option Bool := none
  deriving DecidableEq

/-- Raw document as produced by the upstream semi-structured parser:
enumerated fields are undecoded strings and unsigned integer fields are raw
JSON integers; everything else already has its shape. -/
structure EditorSettingsRaw where
  cursor_blink : Option Bool := none
  current_line_highlight : Option String := none
  hover_popover_enabled : Option Bool := none
  show_completions_on_input : Option Bool := none
  show_completion_documentation : Option Bool := none
  completion_documentation_secondary_query_debounce : Option Int := none
  use_on_type_format : Option Bool := none
  toolbar : Option ToolbarContent := none
  scrollbar : Option ScrollbarRaw := none
  gutter : Option GutterContent := none
  scroll_beyond_last_line : Option String := none
  vertical_scroll_margin : Option Rat := none
  scroll_sensitivity : Option Rat := none
  relative_line_numbers : Option Bool := none
  seed_search_query_from_cursor : Option String := none
  multi_cursor_modifier : Option String := none
  redact_private_values : Option Bool := none
  expand_excerpt_lines : Option Int := none
  middle_click_paste : Option Bool := none
  double_click_in_multibuffer : Option String := none
  search_wrap : Option Bool := none
  auto_signature_help : Option Bool := none
  show_signature_help_after_edits : Option Bool := none
  jupyter : Option JupyterContent := none
  show_diagnostics_inline : Option Bool := none
  deriving DecidableEq

/-- Decode an optional field with a fallible element decoder; absence stays
absence, a present value must decode. -/
def decodeOptWith (f : α → Except ResolutionError β) :
    Option α → Except ResolutionError (Option β)
  | none => .ok none
  | some a => (f a).map some

/-- Decode an optional unsigned integer of the given bit width, rejecting
values outside `[0, 2^bits)` as serde does for `u32`/`u64`. -/
def decodeUInt (field : String) (bits : Nat) :
    Option Int → Except ResolutionError (Option Nat)
  | none => .ok none
  | some n =>
    if 0 ≤ n ∧ n < 2 ^ bits then .ok (some n.toNat)
    else .error (.outOfDomainValue field n)

/-- Decode the raw scrollbar group into `ScrollbarContent`. -/
def decodeScrollbar (s : ScrollbarRaw) :
    Except ResolutionError ScrollbarContent := do
  let sh ← decodeOptWith ShowScrollbar.fromString s.«show»
  return { «show» := sh, git_diff := s.git_diff,
           search_results := s.search_results,
           selected_symbol := s.selected_symbol,
           diagnostics := s.diagnostics, cursors := s.cursors }

/-- Decode one raw document into a typed `EditorSettingsContent`,
validating every enumerated spelling and integer range (this is where
serde's enum decoding of one configuration source happens). -/
def decodeDoc (d : EditorSettingsRaw) :
    Except ResolutionError EditorSettingsContent := do
  let clh ← decodeOptWith CurrentLineHighlight.fromString d.current_line_highlight
  let debounce ← decodeUInt "completion_documentation_secondary_query_debounce" 64
    d.completion_documentation_secondary_query_debounce
  let scrollbar ← decodeOptWith decodeScrollbar d.scrollbar
  let sbll ← decodeOptWith ScrollBeyondLastLine.fromString d.scroll_beyond_last_line
  let seed ← decodeOptWith SeedQuerySetting.fromString d.seed_search_query_from_cursor
  let mcm ← decodeOptWith MultiCursorModifier.fromString d.multi_cursor_modifier
  let eel ← decodeUInt "expand_excerpt_lines" 32 d.expand_excerpt_lines
  let dcim ← decodeOptWith DoubleClickInMultibuffer.fromString d.double_click_in_multibuffer
  return { cursor_blink := d.cursor_blink,
           current_line_highlight := clh,
           hover_popover_enabled := d.hover_popover_enabled,
           show_completions_on_input := d.show_completions_on_input,
           show_completion_documentation := d.show_completion_documentation,
           completion_documentation_secondary_query_debounce := debounce,
           use_on_type_format := d.use_on_type_format,
           toolbar := d.toolbar,
           scrollbar := scrollbar,
           gutter := d.gutter,
           scroll_beyond_last_line := sbll,
           vertical_scroll_margin := d.vertical_scroll_margin,
           scroll_sensitivity := d.scroll_sensitivity,
           relative_line_numbers := d.relative_line_numbers,
           seed_search_query_from_cursor := seed,
           multi_cursor_modifier := mcm,
           redact_private_values := d.redact_private_values,
           expand_excerpt_lines := eel,
           middle_click_paste := d.middle_click_paste,
           double_click_in_multibuffer := dcim,
           search_wrap := d.search_wrap,
           auto_signature_help := d.auto_signature_help,
           show_signature_help_after_edits := d.show_signature_help_after_edits,
           jupyter := d.jupyter,
           show_diagnostics_inline := d.show_diagnostics_inline }

/-- Decode every document of a merge sequence, in order. -/
def decodeDocs : List EditorSettingsRaw →
    Except ResolutionError (List EditorSettingsContent)
  | [] => .ok []
  | d :: rest => do
    let c ← decodeDoc d
    let cs ← decodeDocs rest
    return c :: cs

/-- Modelled from the spec: the per-field last-wins rule of the Merge
Engine (`SettingsSources::json_merge` in the external `settings` crate, not
under src/) — the incoming (higher-priority) document's value wins when
present, otherwise the accumulated value is kept. -/
def mergeField (acc d : Option α) : Option α := d.orElse fun _ => acc

/-- Modelled from the spec: merging of an optional nested group — when both
layers carry the group it is merged recursively, otherwise whichever layer
carries it wins; a group is never replaced wholesale. -/
def mergeOpt (m : α → α → α) : Option α → Option α → Option α
  | acc, none => acc
  | none, some b => some b
  | some a, some b => some (m a b)

/-- Modelled from the spec: recursive merge of the toolbar group. -/
def mergeToolbar (a b : ToolbarContent) : ToolbarContent :=
  { breadcrumbs := mergeField a.breadcrumbs b.breadcrumbs,
    quick_actions := mergeField a.quick_actions b.quick_actions,
    selections_menu := mergeField a.selections_menu b.selections_menu }

/-- Modelled from the spec: recursive merge of the scrollbar group. -/
def mergeScrollbar (a b : ScrollbarContent) : ScrollbarContent :=
  { «show» := mergeField a.«show» b.«show»,
    git_diff := mergeField a.git_diff b.git_diff,
    search_results := mergeField a.search_results b.search_results,
    selected_symbol := mergeField a.selected_symbol b.selected_symbol,
    diagnostics := mergeField a.diagnostics b.diagnostics,
    cursors := mergeField a.cursors b.cursors }

/-- Modelled from the spec: recursive merge of the gutter group. -/
def mergeGutter (a b : GutterContent) : GutterContent :=
  { line_numbers := mergeField a.line_numbers b.line_numbers,
    code_actions := mergeField a.code_actions b.code_actions,
    runnables := mergeField a.runnables b.runnables,
    folds := mergeField a.folds b.folds }

/-- Modelled from the spec: recursive merge of the jupyter group. -/
def mergeJupyter (a b : JupyterContent) : JupyterContent :=
  { enabled := mergeField a.enabled b.enabled }

/-- Modelled from the spec: merge of two documents, lower priority first —
last-wins per scalar field, recursive per nested group. -/
def mergeContent (a b : EditorSettingsContent) : EditorSettingsContent :=
  { cursor_blink := mergeField a.cursor_blink b.cursor_blink,
    current_line_highlight := mergeField a.current_line_highlight b.current_line_highlight,
    hover_popover_enabled := mergeField a.hover_popover_enabled b.hover_popover_enabled,
    show_completions_on_input := mergeField a.show_completions_on_input b.show_completions_on_input,
    show_completion_documentation := mergeField a.show_completion_documentation b.show_completion_documentation,
    completion_documentation_secondary_query_debounce :=
      mergeField a.completion_documentation_secondary_query_debounce
        b.completion_documentation_secondary_query_debounce,
    use_on_type_format := mergeField a.use_on_type_format b.use_on_type_format,
    toolbar := mergeOpt mergeToolbar a.toolbar b.toolbar,
    scrollbar := mergeOpt mergeScrollbar a.scrollbar b.scrollbar,
    gutter := mergeOpt mergeGutter a.gutter b.gutter,
    scroll_beyond_last_line := mergeField a.scroll_beyond_last_line b.scroll_beyond_last_line,
    vertical_scroll_margin := mergeField a.vertical_scroll_margin b.vertical_scroll_margin,
    scroll_sensitivity := mergeField a.scroll_sensitivity b.scroll_sensitivity,
    relative_line_numbers := mergeField a.relative_line_numbers b.relative_line_numbers,
    seed_search_query_from_cursor := mergeField a.seed_search_query_from_cursor b.seed_search_query_from_cursor,
    multi_cursor_modifier := mergeField a.multi_cursor_modifier b.multi_cursor_modifier,
    redact_private_values := mergeField a.redact_private_values b.redact_private_values,
    expand_excerpt_lines := mergeField a.expand_excerpt_lines b.expand_excerpt_lines,
    middle_click_paste := mergeField a.middle_click_paste b.middle_click_paste,
    double_click_in_multibuffer := mergeField a.double_click_in_multibuffer b.double_click_in_multibuffer,
    search_wrap := mergeField a.search_wrap b.search_wrap,
    auto_signature_help := mergeField a.auto_signature_help b.auto_signature_help,
    show_signature_help_after_edits := mergeField a.show_signature_help_after_edits b.show_signature_help_after_edits,
    jupyter := mergeOpt mergeJupyter a.jupyter b.jupyter,
    show_diagnostics_inline := mergeField a.show_diagnostics_inline b.show_diagnostics_inline }

/-- The everywhere-absent document (`EditorSettingsContent::default()`). -/
def emptyContent : EditorSettingsContent := {}

/-- Modelled from the spec: fold an ordered merge sequence, lowest priority
first, into one fully merged document. -/
def mergeList (docs : List EditorSettingsContent) : EditorSettingsContent :=
  docs.foldl mergeContent emptyContent

/-- Require a present field, mirroring serde's missing-field failure when
deserializing the merged document into the resolved struct. -/
def req (name : String) : Option α → Except ResolutionError α
  | some v => .ok v
  | none => .error (.missingField name)

/-- Resolve the toolbar group: all three leaves are required. -/
def resolveToolbar (t : ToolbarContent) : Except ResolutionError Toolbar := do
  let breadcrumbs ← req "toolbar.breadcrumbs" t.breadcrumbs
  let quick_actions ← req "toolbar.quick_actions" t.quick_actions
  let selections_menu ← req "toolbar.selections_menu" t.selections_menu
  return { breadcrumbs := breadcrumbs, quick_actions := quick_actions,
           selections_menu := selections_menu }

/-- Resolve the scrollbar group: all six leaves are required. -/
def resolveScrollbar (s : ScrollbarContent) : Except ResolutionError Scrollbar := do
  let sh ← req "scrollbar.show" s.«show»
  let git_diff ← req "scrollbar.git_diff" s.git_diff
  let selected_symbol ← req "scrollbar.selected_symbol" s.selected_symbol
  let search_results ← req "scrollbar.search_results" s.search_results
  let diagnostics ← req "scrollbar.diagnostics" s.diagnostics
  let cursors ← req "scrollbar.cursors" s.cursors
  return { «show» := sh, git_diff := git_diff,
           selected_symbol := selected_symbol,
           search_results := search_results,
           diagnostics := diagnostics, cursors := cursors }

/-- Resolve the gutter group: all four leaves are required. -/
def resolveGutter (g : GutterContent) : Except ResolutionError Gutter := do
  let line_numbers ← req "gutter.line_numbers" g.line_numbers
  let code_actions ← req "gutter.code_actions" g.code_actions
  let runnables ← req "gutter.runnables" g.runnables
  let folds ← req "gutter.folds" g.folds
  return { line_numbers := line_numbers, code_actions := code_actions,
           runnables := runnables, folds := folds }

/-- Resolve the jupyter group: `enabled` is required. -/
def resolveJupyter (j : JupyterContent) : Except ResolutionError Jupyter := do
  let enabled ← req "jupyter.enabled" j.enabled
  return { enabled := enabled }

/-- Resolver: convert the fully merged document into `EditorSettings`,
mirroring serde derive semantics of the resolved struct declarations —
every field is required (its absence is a missing-field failure) except
`double_click_in_multibuffer`, whose `#[serde(default)]` substitutes the
`Select` default when the field is absent. -/
def resolveContent (c : EditorSettingsContent) :
    Except ResolutionError EditorSettings := do
  let cursor_blink ← req "cursor_blink" c.cursor_blink
  let clh ← req "current_line_highlight" c.current_line_highlight
  let hover_popover_enabled ← req "hover_popover_enabled" c.hover_popover_enabled
  let show_completions_on_input ← req "show_completions_on_input" c.show_completions_on_input
  let show_completion_documentation ← req "show_completion_documentation" c.show_completion_documentation
  let debounce ← req "completion_documentation_secondary_query_debounce"
    c.completion_documentation_secondary_query_debounce
  let use_on_type_format ← req "use_on_type_format" c.use_on_type_format
  let toolbar ← req "toolbar" c.toolbar >>= resolveToolbar
  let scrollbar ← req "scrollbar" c.scrollbar >>= resolveScrollbar
  let gutter ← req "gutter" c.gutter >>= resolveGutter
  let sbll ← req "scroll_beyond_last_line" c.scroll_beyond_last_line
  let vertical_scroll_margin ← req "vertical_scroll_margin" c.vertical_scroll_margin
  let scroll_sensitivity ← req "scroll_sensitivity" c.scroll_sensitivity
  let relative_line_numbers ← req "relative_line_numbers" c.relative_line_numbers
  let seed ← req "seed_search_query_from_cursor" c.seed_search_query_from_cursor
  let mcm ← req "multi_cursor_modifier" c.multi_cursor_modifier
  let redact_private_values ← req "redact_private_values" c.redact_private_values
  let eel ← req "expand_excerpt_lines" c.expand_excerpt_lines
  let middle_click_paste ← req "middle_click_paste" c.middle_click_paste
  let search_wrap ← req "search_wrap" c.search_wrap
  let auto_signature_help ← req "auto_signature_help" c.auto_signature_help
  let show_signature_help_after_edits ← req "show_signature_help_after_edits"
    c.show_signature_help_after_edits
  let jupyter ← req "jupyter" c.jupyter >>= resolveJupyter
  let show_diagnostics_inline ← req "show_diagnostics_inline" c.show_diagnostics_inline
  return { cursor_blink := cursor_blink,
           current_line_highlight := clh,
           hover_popover_enabled := hover_popover_enabled,
           show_completions_on_input := show_completions_on_input,
           show_completion_documentation := show_completion_documentation,
           completion_documentation_secondary_query_debounce := debounce,
           use_on_type_format := use_on_type_format,
           toolbar := toolbar,
           scrollbar := scrollbar,
           gutter := gutter,
           scroll_beyond_last_line := sbll,
           vertical_scroll_margin := vertical_scroll_margin,
           scroll_sensitivity := scroll_sensitivity,
           relative_line_numbers := relative_line_numbers,
           seed_search_query_from_cursor := seed,
           multi_cursor_modifier := mcm,
           redact_private_values := redact_private_values,
           expand_excerpt_lines := eel,
           middle_click_paste := middle_click_paste,
           double_click_in_multibuffer := c.double_click_in_multibuffer.getD .Select,
           search_wrap := search_wrap,
           auto_signature_help := auto_signature_help,
           show_signature_help_after_edits := show_signature_help_after_edits,
           jupyter := jupyter,
           show_diagnostics_inline := show_diagnostics_inline }

/-- The sole entry point (`EditorSettings::load` delegating to
`sources.json_merge()`): decode every raw document, merge lowest priority
first, and resolve the merged document. -/
def resolve (docs : List EditorSettingsRaw) :
    Except ResolutionError EditorSettings := do
  let typed ← decodeDocs docs
  resolveContent (mergeList typed)

/-- Access Facade accessor `EditorSettings::jupyter_enabled`: reads the
`enabled` boolean out of the jupyter group of the installed resolved
configuration (the installed singleton is passed in as a value). -/
def jupyter_enabled (installed : EditorSettings) : Bool :=
  installed.jupyter.enabled

/-- Turn a resolved configuration into the fully specified document that
declares exactly its values (used to build concrete test documents). -/
def mkContent (v : EditorSettings) : EditorSettingsContent :=
  { cursor_blink := some v.cursor_blink,
    current_line_highlight := some v.current_line_highlight,
    hover_popover_enabled := some v.hover_popover_enabled,
    show_completions_on_input := some v.show_completions_on_input,
    show_completion_documentation := some v.show_completion_documentation,
    completion_documentation_secondary_query_debounce :=
      some v.completion_documentation_secondary_query_debounce,
    use_on_type_format := some v.use_on_type_format,
    toolbar := some { breadcrumbs := some v.toolbar.breadcrumbs,
                      quick_actions := some v.toolbar.quick_actions,
                      selections_menu := some v.toolbar.selections_menu },
    scrollbar := some { «show» := some v.scrollbar.«show»,
                        git_diff := some v.scrollbar.git_diff,
                        search_results := some v.scrollbar.search_results,
                        selected_symbol := some v.scrollbar.selected_symbol,
                        diagnostics := some v.scrollbar.diagnostics,
                        cursors := some v.scrollbar.cursors },
    gutter := some { line_numbers := some v.gutter.line_numbers,
                     code_actions := some v.gutter.code_actions,
                     runnables := some v.gutter.runnables,
                     folds := some v.gutter.folds },
    scroll_beyond_last_line := some v.scroll_beyond_last_line,
    vertical_scroll_margin := some v.vertical_scroll_margin,
    scroll_sensitivity := some v.scroll_sensitivity,
    relative_line_numbers := some v.relative_line_numbers,
    seed_search_query_from_cursor := some v.seed_search_query_from_cursor,
    multi_cursor_modifier := some v.multi_cursor_modifier,
    redact_private_values := some v.redact_private_values,
    expand_excerpt_lines := some v.expand_excerpt_lines,
    middle_click_paste := some v.middle_click_paste,
    double_click_in_multibuffer := some v.double_click_in_multibuffer,
    search_wrap := some v.search_wrap,
    auto_signature_help := some v.auto_signature_help,
    show_signature_help_after_edits := some v.show_signature_help_after_edits,
    jupyter := some { enabled := some v.jupyter.enabled },
    show_diagnostics_inline := some v.show_diagnostics_inline }

/-- The resolved configuration carrying every field's documented default
(the values of the doc comments on `EditorSettingsContent`). -/
def defaultSettings : EditorSettings :=
  { cursor_blink := true,
    current_line_highlight := .All,
    hover_popover_enabled := true,
    show_completions_on_input := true,
    show_completion_documentation := true,
    completion_documentation_secondary_query_debounce := 300,
    use_on_type_format := true,
    toolbar := { breadcrumbs := true, quick_actions := true, selections_menu := true },
    scrollbar := { «show» := .Auto, git_diff := true, selected_symbol := true,
                   search_results := true, diagnostics := true, cursors := true },
    gutter := { line_numbers := true, code_actions := true, runnables := true,
                folds := true },
    scroll_beyond_last_line := .OnePage,
    vertical_scroll_margin := 3,
    scroll_sensitivity := 1,
    relative_line_numbers := false,
    seed_search_query_from_cursor := .Always,
    multi_cursor_modifier := .Alt,
    redact_private_values := false,
    expand_excerpt_lines := 3,
    middle_click_paste := true,
    double_click_in_multibuffer := .Select,
    search_wrap := true,
    auto_signature_help := false,
    show_signature_help_after_edits := true,
    jupyter := { enabled := true },
    show_diagnostics_inline := false }

/-- The built-in defaults document: the lowest-priority layer, specifying
every field's documented default. -/
def defaultContent : EditorSettingsContent := mkContent defaultSettings

/-- The built-in defaults document in raw (undecoded) form, with the
canonical spellings of every enumerated default. -/
def defaultRaw : EditorSettingsRaw :=
  { cursor_blink := some true,
    current_line_highlight := some "all",
    hover_popover_enabled := some true,
    show_completions_on_input := some true,
    show_completion_documentation := some true,
    completion_documentation_secondary_query_debounce := some 300,
    use_on_type_format := some true,
    toolbar := some { breadcrumbs := some true, quick_actions := some true,
                      selections_menu := some true },
    scrollbar := some { «show» := some "auto", git_diff := some true,
                        search_results := some true, selected_symbol := some true,
                        diagnostics := some true, cursors := some true },
    gutter := some { line_numbers := some true, code_actions := some true,
                     runnables := some true, folds := some true },
    scroll_beyond_last_line := some "one_page",
    vertical_scroll_margin := some 3,
    scroll_sensitivity := some 1,
    relative_line_numbers := some false,
    seed_search_query_from_cursor := some "always",
    multi_cursor_modifier := some "alt",
    redact_private_values := some false,
    expand_excerpt_lines := some 3,
    middle_click_paste := some true,
    double_click_in_multibuffer := some "select",
    search_wrap := some true,
    auto_signature_help := some false,
    show_signature_help_after_edits := some true,
    jupyter := some { enabled := some true },
    show_diagnostics_inline := some false }

/-- The everywhere-absent raw document. -/
def emptyRaw : EditorSettingsRaw := {}

/-! Helper lemmas about the `Except` plumbing and the merge fold. -/

/-- A successful bind factors through a successful first step. -/
theorem bind_ok {α β : Type} {x : Except ResolutionError α}
    {k : α → Except ResolutionError β} {r : β}
    (h : x >>= k = .ok r) : ∃ a, x = .ok a ∧ k a = .ok r := by
  cases x with
  | error e => simp [Bind.bind, Except.bind] at h
  | ok a => exact ⟨a, rfl, by simpa [Bind.bind, Except.bind] using h⟩

/-- A required field that resolved successfully was present. -/
theorem req_ok {α : Type} {n : String} {o : Option α} {a : α}
    (h : req n o = .ok a) : o = some a := by
  cases o with
  | none => simp [req] at h
  | some v => simpa [req] using h

/-- `pure` only produces the value it was given. -/
theorem pure_ok {α : Type} {a b : α}
    (h : (pure a : Except ResolutionError α) = .ok b) : a = b := by
  simpa [pure, Except.pure] using h

/-- The last element of a non-trivial cons, expressed through `orElse`. -/
theorem last?_cons (a : α) (l : List α) :
    (a :: l).getLast? = ((l.getLast?).orElse fun _ => some a) := by
  cases l with
  | nil => rfl
  | cons b t =>
    rw [List.getLast?_cons_cons]
    have h : (b :: t).getLast?.isSome := by simp [List.getLast?_isSome]
    obtain ⟨v, hv⟩ := Option.isSome_iff_exists.mp h
    simp [hv, Option.orElse]

/-- Fundamental merge lemma: any leaf projection that commutes with one
merge step (higher-priority side wins via `orElse`) folds over the whole
sequence to the value of the last document that specifies the leaf. -/
theorem merge_proj {α : Type} (g : EditorSettingsContent → Option α)
    (hstep : ∀ a d, g (mergeContent a d) = (g d).orElse fun _ => g a)
    (hempty : g emptyContent = none) (docs : List EditorSettingsContent) :
    g (mergeList docs) = (docs.filterMap g).getLast? := by
  suffices h : ∀ init, g (docs.foldl mergeContent init) =
      ((docs.filterMap g).getLast?).orElse fun _ => g init by
    rw [mergeList, h emptyContent, hempty]
    cases (docs.filterMap g).getLast? <;> rfl
  induction docs with
  | nil =>
    intro init
    simp only [List.foldl_nil, List.filterMap_nil, List.getLast?_nil]
    rfl
  | cons d t ih =>
    intro init
    show g (t.foldl mergeContent (mergeContent init d)) = _
    rw [ih (mergeContent init d), hstep init d, List.filterMap_cons]
    cases hd : g d with
    | none => simp [Option.orElse]
    | some v =>
      rw [last?_cons]
      cases (t.filterMap g).getLast? <;> cases g init <;> rfl

/-- Group-merge lemma: projecting a leaf out of an optional nested group
commutes with `mergeOpt`, provided the leaf commutes with the group merge. -/
theorem mergeOpt_bind {G α : Type} (m : G → G → G) (leaf : G → Option α)
    (hm : ∀ a b, leaf (m a b) = (leaf b).orElse fun _ => leaf a) (acc d : Option G) :
    ((mergeOpt m acc d).bind leaf) = ((d.bind leaf).orElse fun _ => acc.bind leaf) := by
  cases acc with
  | none =>
    cases d with
    | none => rfl
    | some b =>
      show leaf b = (leaf b).orElse fun _ => none
      cases leaf b <;> rfl
  | some a =>
    cases d with
    | none => rfl
    | some b =>
      show leaf (m a b) = (leaf b).orElse fun _ => leaf a
      exact hm a b

/-- Successfully resolving the toolbar group pins every leaf. -/
theorem resolveToolbar_ok {t : ToolbarContent} {tb : Toolbar}
    (h : resolveToolbar t = .ok tb) :
    t.breadcrumbs = some tb.breadcrumbs ∧
    t.quick_actions = some tb.quick_actions ∧
    t.selections_menu = some tb.selections_menu := by
  unfold resolveToolbar at h
  obtain ⟨b1, h1, h⟩ := bind_ok h
  obtain ⟨b2, h2, h⟩ := bind_ok h
  obtain ⟨b3, h3, h⟩ := bind_ok h
  have hr := pure_ok h
  subst hr
  exact ⟨req_ok h1, req_ok h2, req_ok h3⟩

/-- Successfully resolving the scrollbar group pins every leaf. -/
theorem resolveScrollbar_ok {s : ScrollbarContent} {sb : Scrollbar}
    (h : resolveScrollbar s = .ok sb) :
    s.«show» = some sb.«show» ∧
    s.git_diff = some sb.git_diff ∧
    s.selected_symbol = some sb.selected_symbol ∧
    s.search_results = some sb.search_results ∧
    s.diagnostics = some sb.diagnostics ∧
    s.cursors = some sb.cursors := by
  unfold resolveScrollbar at h
  obtain ⟨b1, h1, h⟩ := bind_ok h
  obtain ⟨b2, h2, h⟩ := bind_ok h
  obtain ⟨b3, h3, h⟩ := bind_ok h
  obtain ⟨b4, h4, h⟩ := bind_ok h
  obtain ⟨b5, h5, h⟩ := bind_ok h
  obtain ⟨b6, h6, h⟩ := bind_ok h
  have hr := pure_ok h
  subst hr
  exact ⟨req_ok h1, req_ok h2, req_ok h3, req_ok h4, req_ok h5, req_ok h6⟩

/-- Successfully resolving the gutter group pins every leaf. -/
theorem resolveGutter_ok {g : GutterContent} {gt : Gutter}
    (h : resolveGutter g = .ok gt) :
    g.line_numbers = some gt.line_numbers ∧
    g.code_actions = some gt.code_actions ∧
    g.runnables = some gt.runnables ∧
    g.folds = some gt.folds := by
  unfold resolveGutter at h
  obtain ⟨b1, h1, h⟩ := bind_ok h
  obtain ⟨b2, h2, h⟩ := bind_ok h
  obtain ⟨b3, h3, h⟩ := bind_ok h
  obtain ⟨b4, h4, h⟩ := bind_ok h
  have hr := pure_ok h
  subst hr
  exact ⟨req_ok h1, req_ok h2, req_ok h3, req_ok h4⟩

/-- Successfully resolving the jupyter group pins its leaf. -/
theorem resolveJupyter_ok {j : JupyterContent} {jp : Jupyter}
    (h : resolveJupyter j = .ok jp) : j.enabled = some jp.enabled := by
  unfold resolveJupyter at h
  obtain ⟨b1, h1, h⟩ := bind_ok h
  have hr := pure_ok h
  subst hr
  exact req_ok h1

/-- Master inversion lemma for the resolver: a successful resolution pins
every required field of the merged document to the resolved value, pins the
leaves of every nested group, and computes `double_click_in_multibuffer`
via its serde default. -/
theorem resolveContent_ok {c : EditorSettingsContent} {r : EditorSettings}
    (h : resolveContent c = .ok r) :
    c.cursor_blink = some r.cursor_blink ∧
    c.current_line_highlight = some r.current_line_highlight ∧
    c.hover_popover_enabled = some r.hover_popover_enabled ∧
    c.show_completions_on_input = some r.show_completions_on_input ∧
    c.show_completion_documentation = some r.show_completion_documentation ∧
    c.completion_documentation_secondary_query_debounce =
      some r.completion_documentation_secondary_query_debounce ∧
    c.use_on_type_format = some r.use_on_type_format ∧
    (∃ t, c.toolbar = some t ∧
      t.breadcrumbs = some r.toolbar.breadcrumbs ∧
      t.quick_actions = some r.toolbar.quick_actions ∧
      t.selections_menu = some r.toolbar.selections_menu) ∧
    (∃ s, c.scrollbar = some s ∧
      s.«show» = some r.scrollbar.«show» ∧
      s.git_diff = some r.scrollbar.git_diff ∧
      s.selected_symbol = some r.scrollbar.selected_symbol ∧
      s.search_results = some r.scrollbar.search_results ∧
      s.diagnostics = some r.scrollbar.diagnostics ∧
      s.cursors = some r.scrollbar.cursors) ∧
    (∃ g, c.gutter = some g ∧
      g.line_numbers = some r.gutter.line_numbers ∧
      g.code_actions = some r.gutter.code_actions ∧
      g.runnables = some r.gutter.runnables ∧
      g.folds = some r.gutter.folds) ∧
    c.scroll_beyond_last_line = some r.scroll_beyond_last_line ∧
    c.vertical_scroll_margin = some r.vertical_scroll_margin ∧
    c.scroll_sensitivity = some r.scroll_sensitivity ∧
    c.relative_line_numbers = some r.relative_line_numbers ∧
    c.seed_search_query_from_cursor = some r.seed_search_query_from_cursor ∧
    c.multi_cursor_modifier = some r.multi_cursor_modifier ∧
    c.redact_private_values = some r.redact_private_values ∧
    c.expand_excerpt_lines = some r.expand_excerpt_lines ∧
    c.middle_click_paste = some r.middle_click_paste ∧
    r.double_click_in_multibuffer = c.double_click_in_multibuffer.getD .Select ∧
    c.search_wrap = some r.search_wrap ∧
    c.auto_signature_help = some r.auto_signature_help ∧
    c.show_signature_help_after_edits = some r.show_signature_help_after_edits ∧
    (∃ j, c.jupyter = some j ∧ j.enabled = some r.jupyter.enabled) ∧
    c.show_diagnostics_inline = some r.show_diagnostics_inline := by
  unfold resolveContent at h
  obtain ⟨v1, h1, h⟩ := bind_ok h
  obtain ⟨v2, h2, h⟩ := bind_ok h
  obtain ⟨v3, h3, h⟩ := bind_ok h
  obtain ⟨v4, h4, h⟩ := bind_ok h
  obtain ⟨v5, h5, h⟩ := bind_ok h
  obtain ⟨v6, h6, h⟩ := bind_ok h
  obtain ⟨v7, h7, h⟩ := bind_ok h
  obtain ⟨tb, htb, h⟩ := bind_ok h
  obtain ⟨t0, ht0, htb⟩ := bind_ok htb
  obtain ⟨sb, hsb, h⟩ := bind_ok h
  obtain ⟨s0, hs0, hsb⟩ := bind_ok hsb
  obtain ⟨gt, hgt, h⟩ := bind_ok h
  obtain ⟨g0, hg0, hgt⟩ := bind_ok hgt
  obtain ⟨v11, h11, h⟩ := bind_ok h
  obtain ⟨v12, h12, h⟩ := bind_ok h
  obtain ⟨v13, h13, h⟩ := bind_ok h
  obtain ⟨v14, h14, h⟩ := bind_ok h
  obtain ⟨v15, h15, h⟩ := bind_ok h
  obtain ⟨v16, h16, h⟩ := bind_ok h
  obtain ⟨v17, h17, h⟩ := bind_ok h
  obtain ⟨v18, h18, h⟩ := bind_ok h
  obtain ⟨v19, h19, h⟩ := bind_ok h
  obtain ⟨v21, h21, h⟩ := bind_ok h
  obtain ⟨v22, h22, h⟩ := bind_ok h
  obtain ⟨v23, h23, h⟩ := bind_ok h
  obtain ⟨jp, hjp, h⟩ := bind_ok h
  obtain ⟨j0, hj0, hjp⟩ := bind_ok hjp
  obtain ⟨v25, h25, h⟩ := bind_ok h
  have hr := pure_ok h
  subst hr
  refine ⟨req_ok h1, req_ok h2, req_ok h3, req_ok h4, req_ok h5, req_ok h6,
    req_ok h7, ⟨t0, req_ok ht0, resolveToolbar_ok htb⟩,
    ⟨s0, req_ok hs0, resolveScrollbar_ok hsb⟩,
    ⟨g0, req_ok hg0, resolveGutter_ok hgt⟩,
    req_ok h11, req_ok h12, req_ok h13, req_ok h14, req_ok h15, req_ok h16,
    req_ok h17, req_ok h18, req_ok h19, rfl, req_ok h21, req_ok h22,
    req_ok h23, ⟨j0, req_ok hj0, resolveJupyter_ok hjp⟩, req_ok h25⟩

/-- Decoding a list succeeds only if every member document decodes. -/
theorem decodeDocs_mem_ok {l : List EditorSettingsRaw}
    {cs : List EditorSettingsContent} {d : EditorSettingsRaw}
    (h : decodeDocs l = .ok cs) (hd : d ∈ l) : ∃ c, decodeDoc d = .ok c := by
  induction l generalizing cs with
  | nil => cases hd
  | cons x t ih =>
    rw [decodeDocs] at h
    obtain ⟨c, hc, h⟩ := bind_ok h
    obtain ⟨rest, hrest, h⟩ := bind_ok h
    cases hd with
    | head => exact ⟨c, hc⟩
    | tail _ hd => exact ih hrest hd

/-- A successful decode of one document pins the decode of its
`current_line_highlight` spelling. -/
theorem decodeDoc_ok_clh {d : EditorSettingsRaw} {c : EditorSettingsContent}
    (h : decodeDoc d = .ok c) :
    ∃ x, decodeOptWith CurrentLineHighlight.fromString d.current_line_highlight = .ok x := by
  unfold decodeDoc at h
  obtain ⟨x, hx, h⟩ := bind_ok h
  exact ⟨x, hx⟩

/-- When every document decodes, `resolve` is the resolver applied to the
merge of the decoded documents: the merge step itself contributes no
failure. -/
theorem resolve_decode_ok {docs : List EditorSettingsRaw}
    {typed : List EditorSettingsContent} (h : decodeDocs docs = .ok typed) :
    resolve docs = resolveContent (mergeList typed) := by
  unfold resolve
  rw [h]
  rfl

/-- When some document fails to decode, `resolve` propagates exactly that
decode error. -/
theorem resolve_decode_error {docs : List EditorSettingsRaw}
    {e : ResolutionError} (h : decodeDocs docs = .error e) :
    resolve docs = .error e := by
  unfold resolve
  rw [h]
  rfl

/-- Replacing the final (highest-priority) document by one that decodes to
the same typed content leaves the whole decode of the sequence unchanged. -/
theorem decodeDocs_congr_last {x y : EditorSettingsRaw}
    (hxy : decodeDoc x = decodeDoc y) (docs : List EditorSettingsRaw) :
    decodeDocs (docs ++ [x]) = decodeDocs (docs ++ [y]) := by
  induction docs with
  | nil => simp only [List.nil_append, decodeDocs, hxy]
  | cons d t ih =>
    show decodeDocs (d :: (t ++ [x])) = decodeDocs (d :: (t ++ [y]))
    simp only [decodeDocs, ih]

/-- Two raw documents that differ only in the spelling stored for
`multi_cursor_modifier` decode identically whenever the two spellings
decode identically. -/
theorem decodeDoc_mcm_congr (d : EditorSettingsRaw) (s1 s2 : Option String)
    (h : decodeOptWith MultiCursorModifier.fromString s1 =
         decodeOptWith MultiCursorModifier.fromString s2) :
    decodeDoc { d with multi_cursor_modifier := s1 } =
      decodeDoc { d with multi_cursor_modifier := s2 } := by
  cases d
  simp only [decodeDoc, h]

/-- Any spelling outside the canonical set of `CurrentLineHighlight` is
rejected with an error naming the field and the offending value. -/
theorem clh_fromString_invalid {s : String} (h1 : s ≠ "none") (h2 : s ≠ "gutter")
    (h3 : s ≠ "line") (h4 : s ≠ "all") :
    CurrentLineHighlight.fromString s =
      .error (.invalidEnumValue "current_line_highlight" s) := by
  simp [CurrentLineHighlight.fromString, h1, h2, h3, h4]

/-- The last leaf merged from a defaults-headed sequence whose upper layers
never specify a leaf is the defaults value (list computation helper). -/
theorem filterMap_default_head {α : Type} (g : EditorSettingsContent → Option α)
    {v : α} (hdef : g defaultContent = some v)
    {docs : List EditorSettingsContent} (hnil : docs.filterMap g = []) :
    (defaultContent :: docs).filterMap g = [v] := by
  rw [List.filterMap_cons]
  simp only [hdef, hnil]

/-! The claims. -/

/-- Claim C1: last-wins per-field merge — for every ordered merge sequence
and every top-level scalar field, the resolved value of the field equals
the value from the last (highest-priority) document in the sequence that
specifies it (documents not specifying a field leave the accumulated value
untouched); in particular merging [{scrollMargin 3}, {scrollMargin 5}, {}]
resolves scrollMargin to 5. -/
theorem C1_last_wins_per_field :
    (∀ (docs : List EditorSettingsContent) (r : EditorSettings),
      resolveContent (mergeList docs) = .ok r →
      ((docs.filterMap fun c => c.cursor_blink).getLast? = some r.cursor_blink ∧
       (docs.filterMap fun c => c.current_line_highlight).getLast? =
         some r.current_line_highlight ∧
       (docs.filterMap fun c => c.hover_popover_enabled).getLast? =
         some r.hover_popover_enabled ∧
       (docs.filterMap fun c => c.show_completions_on_input).getLast? =
         some r.show_completions_on_input ∧
       (docs.filterMap fun c => c.show_completion_documentation).getLast? =
         some r.show_completion_documentation ∧
       (docs.filterMap fun c => c.completion_documentation_secondary_query_debounce).getLast? =
         some r.completion_documentation_secondary_query_debounce ∧
       (docs.filterMap fun c => c.use_on_type_format).getLast? = some r.use_on_type_format ∧
       (docs.filterMap fun c => c.scroll_beyond_last_line).getLast? =
         some r.scroll_beyond_last_line ∧
       (docs.filterMap fun c => c.vertical_scroll_margin).getLast? =
         some r.vertical_scroll_margin ∧
       (docs.filterMap fun c => c.scroll_sensitivity).getLast? = some r.scroll_sensitivity ∧
       (docs.filterMap fun c => c.relative_line_numbers).getLast? =
         some r.relative_line_numbers ∧
       (docs.filterMap fun c => c.seed_search_query_from_cursor).getLast? =
         some r.seed_search_query_from_cursor ∧
       (docs.filterMap fun c => c.multi_cursor_modifier).getLast? =
         some r.multi_cursor_modifier ∧
       (docs.filterMap fun c => c.redact_private_values).getLast? =
         some r.redact_private_values ∧
       (docs.filterMap fun c => c.expand_excerpt_lines).getLast? =
         some r.expand_excerpt_lines ∧
       (docs.filterMap fun c => c.middle_click_paste).getLast? = some r.middle_click_paste ∧
       (∀ v, (docs.filterMap fun c => c.double_click_in_multibuffer).getLast? = some v →
         r.double_click_in_multibuffer = v) ∧
       (docs.filterMap fun c => c.search_wrap).getLast? = some r.search_wrap ∧
       (docs.filterMap fun c => c.auto_signature_help).getLast? =
         some r.auto_signature_help ∧
       (docs.filterMap fun c => c.show_signature_help_after_edits).getLast? =
         some r.show_signature_help_after_edits ∧
       (docs.filterMap fun c => c.show_diagnostics_inline).getLast? =
         some r.show_diagnostics_inline)) ∧
    (mergeList [{ emptyContent with vertical_scroll_margin := some 3 },
                { emptyContent with vertical_scroll_margin := some 5 },
                emptyContent]).vertical_scroll_margin = some 5 ∧
    resolve [{ defaultRaw with vertical_scroll_margin := some 3 },
             { emptyRaw with vertical_scroll_margin := some 5 }, emptyRaw] =
      .ok { defaultSettings with vertical_scroll_margin := 5 } := by
  refine ⟨?_, rfl, rfl⟩
  intro docs r h
  obtain ⟨p1, p2, p3, p4, p5, p6, p7, ptb, psb, pgt, p11, p12, p13, p14, p15, p16,
    p17, p18, p19, p20, p21, p22, p23, pjp, p25⟩ := resolveContent_ok h
  exact ⟨(merge_proj (fun c => c.cursor_blink) (fun _ _ => rfl) rfl docs).symm.trans p1,
    (merge_proj (fun c => c.current_line_highlight) (fun _ _ => rfl) rfl docs).symm.trans p2,
    (merge_proj (fun c => c.hover_popover_enabled) (fun _ _ => rfl) rfl docs).symm.trans p3,
    (merge_proj (fun c => c.show_completions_on_input) (fun _ _ => rfl) rfl docs).symm.trans p4,
    (merge_proj (fun c => c.show_completion_documentation) (fun _ _ => rfl) rfl docs).symm.trans p5,
    (merge_proj (fun c => c.completion_documentation_secondary_query_debounce)
      (fun _ _ => rfl) rfl docs).symm.trans p6,
    (merge_proj (fun c => c.use_on_type_format) (fun _ _ => rfl) rfl docs).symm.trans p7,
    (merge_proj (fun c => c.scroll_beyond_last_line) (fun _ _ => rfl) rfl docs).symm.trans p11,
    (merge_proj (fun c => c.vertical_scroll_margin) (fun _ _ => rfl) rfl docs).symm.trans p12,
    (merge_proj (fun c => c.scroll_sensitivity) (fun _ _ => rfl) rfl docs).symm.trans p13,
    (merge_proj (fun c => c.relative_line_numbers) (fun _ _ => rfl) rfl docs).symm.trans p14,
    (merge_proj (fun c => c.seed_search_query_from_cursor) (fun _ _ => rfl) rfl docs).symm.trans p15,
    (merge_proj (fun c => c.multi_cursor_modifier) (fun _ _ => rfl) rfl docs).symm.trans p16,
    (merge_proj (fun c => c.redact_private_values) (fun _ _ => rfl) rfl docs).symm.trans p17,
    (merge_proj (fun c => c.expand_excerpt_lines) (fun _ _ => rfl) rfl docs).symm.trans p18,
    (merge_proj (fun c => c.middle_click_paste) (fun _ _ => rfl) rfl docs).symm.trans p19,
    fun v hv => by
      rw [p20, merge_proj (fun c => c.double_click_in_multibuffer) (fun _ _ => rfl) rfl docs, hv]
      rfl,
    (merge_proj (fun c => c.search_wrap) (fun _ _ => rfl) rfl docs).symm.trans p21,
    (merge_proj (fun c => c.auto_signature_help) (fun _ _ => rfl) rfl docs).symm.trans p22,
    (merge_proj (fun c => c.show_signature_help_after_edits) (fun _ _ => rfl) rfl docs).symm.trans p23,
    (merge_proj (fun c => c.show_diagnostics_inline) (fun _ _ => rfl) rfl docs).symm.trans p25⟩

/-- Witness for C1 at the concrete one-document sequence [defaults]. -/
theorem C1_witness :
    ([defaultContent].filterMap fun c => c.cursor_blink).getLast? =
      some defaultSettings.cursor_blink :=
  (C1_last_wins_per_field.1 [defaultContent] defaultSettings (by rfl)).1

/-- Toolbar-leaf instance of the merge projection lemma. -/
theorem toolbar_leaf_last {α : Type} (leaf : ToolbarContent → Option α)
    (hleaf : ∀ x y, leaf (mergeToolbar x y) = (leaf y).orElse fun _ => leaf x)
    (docs : List EditorSettingsContent) :
    ((mergeList docs).toolbar.bind leaf) =
      (docs.filterMap fun c => c.toolbar.bind leaf).getLast? :=
  merge_proj (fun c => c.toolbar.bind leaf)
    (fun a d => by
      show (mergeOpt mergeToolbar a.toolbar d.toolbar).bind leaf = _
      exact mergeOpt_bind mergeToolbar leaf hleaf a.toolbar d.toolbar)
    rfl docs

/-- Scrollbar-leaf instance of the merge projection lemma. -/
theorem scrollbar_leaf_last {α : Type} (leaf : ScrollbarContent → Option α)
    (hleaf : ∀ x y, leaf (mergeScrollbar x y) = (leaf y).orElse fun _ => leaf x)
    (docs : List EditorSettingsContent) :
    ((mergeList docs).scrollbar.bind leaf) =
      (docs.filterMap fun c => c.scrollbar.bind leaf).getLast? :=
  merge_proj (fun c => c.scrollbar.bind leaf)
    (fun a d => by
      show (mergeOpt mergeScrollbar a.scrollbar d.scrollbar).bind leaf = _
      exact mergeOpt_bind mergeScrollbar leaf hleaf a.scrollbar d.scrollbar)
    rfl docs

/-- Gutter-leaf instance of the merge projection lemma. -/
theorem gutter_leaf_last {α : Type} (leaf : GutterContent → Option α)
    (hleaf : ∀ x y, leaf (mergeGutter x y) = (leaf y).orElse fun _ => leaf x)
    (docs : List EditorSettingsContent) :
    ((mergeList docs).gutter.bind leaf) =
      (docs.filterMap fun c => c.gutter.bind leaf).getLast? :=
  merge_proj (fun c => c.gutter.bind leaf)
    (fun a d => by
      show (mergeOpt mergeGutter a.gutter d.gutter).bind leaf = _
      exact mergeOpt_bind mergeGutter leaf hleaf a.gutter d.gutter)
    rfl docs

/-- Jupyter-leaf instance of the merge projection lemma. -/
theorem jupyter_leaf_last {α : Type} (leaf : JupyterContent → Option α)
    (hleaf : ∀ x y, leaf (mergeJupyter x y) = (leaf y).orElse fun _ => leaf x)
    (docs : List EditorSettingsContent) :
    ((mergeList docs).jupyter.bind leaf) =
      (docs.filterMap fun c => c.jupyter.bind leaf).getLast? :=
  merge_proj (fun c => c.jupyter.bind leaf)
    (fun a d => by
      show (mergeOpt mergeJupyter a.jupyter d.jupyter).bind leaf = _
      exact mergeOpt_bind mergeJupyter leaf hleaf a.jupyter d.jupyter)
    rfl docs

/-- Claim C2: per-field (not per-group) override granularity for nested
groups — for every merge sequence, every leaf of the toolbar, scrollbar,
gutter and jupyter groups obeys the last-wins-per-leaf rule (a partially
specified group never replaces the accumulated group wholesale), the
resolved toolbar leaves carry the last specifying document's values, and
merging [{toolbar {breadcrumbs true, quickActions true}},
{toolbar {breadcrumbs false}}] yields
toolbar = {breadcrumbs false, quickActions true}. -/
theorem C2_nested_group_per_field :
    (∀ docs : List EditorSettingsContent,
      ((mergeList docs).toolbar.bind fun t => t.breadcrumbs) =
        (docs.filterMap fun c => c.toolbar.bind fun t => t.breadcrumbs).getLast? ∧
      ((mergeList docs).toolbar.bind fun t => t.quick_actions) =
        (docs.filterMap fun c => c.toolbar.bind fun t => t.quick_actions).getLast? ∧
      ((mergeList docs).toolbar.bind fun t => t.selections_menu) =
        (docs.filterMap fun c => c.toolbar.bind fun t => t.selections_menu).getLast? ∧
      ((mergeList docs).scrollbar.bind fun s => s.«show») =
        (docs.filterMap fun c => c.scrollbar.bind fun s => s.«show»).getLast? ∧
      ((mergeList docs).scrollbar.bind fun s => s.git_diff) =
        (docs.filterMap fun c => c.scrollbar.bind fun s => s.git_diff).getLast? ∧
      ((mergeList docs).scrollbar.bind fun s => s.search_results) =
        (docs.filterMap fun c => c.scrollbar.bind fun s => s.search_results).getLast? ∧
      ((mergeList docs).scrollbar.bind fun s => s.selected_symbol) =
        (docs.filterMap fun c => c.scrollbar.bind fun s => s.selected_symbol).getLast? ∧
      ((mergeList docs).scrollbar.bind fun s => s.diagnostics) =
        (docs.filterMap fun c => c.scrollbar.bind fun s => s.diagnostics).getLast? ∧
      ((mergeList docs).scrollbar.bind fun s => s.cursors) =
        (docs.filterMap fun c => c.scrollbar.bind fun s => s.cursors).getLast? ∧
      ((mergeList docs).gutter.bind fun g => g.line_numbers) =
        (docs.filterMap fun c => c.gutter.bind fun g => g.line_numbers).getLast? ∧
      ((mergeList docs).gutter.bind fun g => g.code_actions) =
        (docs.filterMap fun c => c.gutter.bind fun g => g.code_actions).getLast? ∧
      ((mergeList docs).gutter.bind fun g => g.runnables) =
        (docs.filterMap fun c => c.gutter.bind fun g => g.runnables).getLast? ∧
      ((mergeList docs).gutter.bind fun g => g.folds) =
        (docs.filterMap fun c => c.gutter.bind fun g => g.folds).getLast? ∧
      ((mergeList docs).jupyter.bind fun j => j.enabled) =
        (docs.filterMap fun c => c.jupyter.bind fun j => j.enabled).getLast?) ∧
    (∀ (docs : List EditorSettingsContent) (r : EditorSettings),
      resolveContent (mergeList docs) = .ok r →
      ((docs.filterMap fun c => c.toolbar.bind fun t => t.breadcrumbs).getLast? =
         some r.toolbar.breadcrumbs ∧
       (docs.filterMap fun c => c.toolbar.bind fun t => t.quick_actions).getLast? =
         some r.toolbar.quick_actions ∧
       (docs.filterMap fun c => c.toolbar.bind fun t => t.selections_menu).getLast? =
         some r.toolbar.selections_menu)) ∧
    (mergeList [{ emptyContent with
                  toolbar := some { breadcrumbs := some true, quick_actions := some true } },
                { emptyContent with toolbar := some { breadcrumbs := some false } }]).toolbar =
      some { breadcrumbs := some false, quick_actions := some true,
             selections_menu := none } ∧
    resolve [defaultRaw, { emptyRaw with toolbar := some { breadcrumbs := some false } }] =
      .ok { defaultSettings with
            toolbar := { breadcrumbs := false, quick_actions := true,
                         selections_menu := true } } := by
  refine ⟨?_, ?_, rfl, rfl⟩
  · intro docs
    exact ⟨toolbar_leaf_last (fun t => t.breadcrumbs) (fun _ _ => rfl) docs,
      toolbar_leaf_last (fun t => t.quick_actions) (fun _ _ => rfl) docs,
      toolbar_leaf_last (fun t => t.selections_menu) (fun _ _ => rfl) docs,
      scrollbar_leaf_last (fun s => s.«show») (fun _ _ => rfl) docs,
      scrollbar_leaf_last (fun s => s.git_diff) (fun _ _ => rfl) docs,
      scrollbar_leaf_last (fun s => s.search_results) (fun _ _ => rfl) docs,
      scrollbar_leaf_last (fun s => s.selected_symbol) (fun _ _ => rfl) docs,
      scrollbar_leaf_last (fun s => s.diagnostics) (fun _ _ => rfl) docs,
      scrollbar_leaf_last (fun s => s.cursors) (fun _ _ => rfl) docs,
      gutter_leaf_last (fun g => g.line_numbers) (fun _ _ => rfl) docs,
      gutter_leaf_last (fun g => g.code_actions) (fun _ _ => rfl) docs,
      gutter_leaf_last (fun g => g.runnables) (fun _ _ => rfl) docs,
      gutter_leaf_last (fun g => g.folds) (fun _ _ => rfl) docs,
      jupyter_leaf_last (fun j => j.enabled) (fun _ _ => rfl) docs⟩
  · intro docs r h
    obtain ⟨p1, p2, p3, p4, p5, p6, p7, ptb, psb, pgt, p11, p12, p13, p14, p15, p16,
      p17, p18, p19, p20, p21, p22, p23, pjp, p25⟩ := resolveContent_ok h
    obtain ⟨t, ht, hb, hq, hs⟩ := ptb
    refine ⟨?_, ?_, ?_⟩
    · rw [← toolbar_leaf_last (fun t => t.breadcrumbs) (fun _ _ => rfl) docs, ht]
      exact hb
    · rw [← toolbar_leaf_last (fun t => t.quick_actions) (fun _ _ => rfl) docs, ht]
      exact hq
    · rw [← toolbar_leaf_last (fun t => t.selections_menu) (fun _ _ => rfl) docs, ht]
      exact hs

/-- Witness for C2 at the concrete one-document sequence [defaults]. -/
theorem C2_witness :
    ([defaultContent].filterMap fun c => c.toolbar.bind fun t => t.breadcrumbs).getLast? =
      some defaultSettings.toolbar.breadcrumbs :=
  (C2_nested_group_per_field.2.1 [defaultContent] defaultSettings (by rfl)).1

/-- Claim C3: legacy alias round-trip — the legacy spellings "ctrl" and
"cmd" both decode to the single canonical variant `CmdOrCtrl` (spelled
"cmd_or_ctrl"), and resolving any sequence whose highest-priority document
spells the modifier with an alias yields exactly the same result as
resolving with the canonical spelling. -/
theorem C3_alias_round_trip :
    MultiCursorModifier.fromString "ctrl" = .ok .CmdOrCtrl ∧
    MultiCursorModifier.fromString "cmd" = .ok .CmdOrCtrl ∧
    MultiCursorModifier.fromString "cmd_or_ctrl" = .ok .CmdOrCtrl ∧
    (∀ (docs : List EditorSettingsRaw) (d : EditorSettingsRaw),
      resolve (docs ++ [{ d with multi_cursor_modifier := some "ctrl" }]) =
        resolve (docs ++ [{ d with multi_cursor_modifier := some "cmd_or_ctrl" }]) ∧
      resolve (docs ++ [{ d with multi_cursor_modifier := some "cmd" }]) =
        resolve (docs ++ [{ d with multi_cursor_modifier := some "cmd_or_ctrl" }])) ∧
    resolve [defaultRaw, { emptyRaw with multi_cursor_modifier := some "ctrl" }] =
      .ok { defaultSettings with multi_cursor_modifier := .CmdOrCtrl } := by
  refine ⟨rfl, rfl, rfl, ?_, rfl⟩
  intro docs d
  constructor
  · unfold resolve
    rw [decodeDocs_congr_last
      (decodeDoc_mcm_congr d (some "ctrl") (some "cmd_or_ctrl") rfl) docs]
  · unfold resolve
    rw [decodeDocs_congr_last
      (decodeDoc_mcm_congr d (some "cmd") (some "cmd_or_ctrl") rfl) docs]

/-- Claim C4: invalid enum values are rejected, never silently defaulted —
an unknown spelling for `current_line_highlight` makes the whole
resolution fail (no resolved configuration is produced) with an error
naming the field and the value, while every canonical spelling (and every
recognized alias) decodes successfully. -/
theorem C4_invalid_enum_rejected :
    (∀ s : String, s ≠ "none" → s ≠ "gutter" → s ≠ "line" → s ≠ "all" →
      CurrentLineHighlight.fromString s =
        .error (.invalidEnumValue "current_line_highlight" s)) ∧
    (∀ (docs : List EditorSettingsRaw) (d : EditorSettingsRaw) (s : String),
      d ∈ docs → d.current_line_highlight = some s →
      s ≠ "none" → s ≠ "gutter" → s ≠ "line" → s ≠ "all" →
      (resolve docs).isOk = false) ∧
    (∀ s : String, s = "none" ∨ s = "gutter" ∨ s = "line" ∨ s = "all" →
      ∃ v, CurrentLineHighlight.fromString s = .ok v) ∧
    (∀ s : String, s = "alt" ∨ s = "cmd_or_ctrl" ∨ s = "cmd" ∨ s = "ctrl" →
      ∃ v, MultiCursorModifier.fromString s = .ok v) ∧
    resolve [defaultRaw, { emptyRaw with current_line_highlight := some "bogus" }] =
      .error (.invalidEnumValue "current_line_highlight" "bogus") := by
  refine ⟨fun s h1 h2 h3 h4 => clh_fromString_invalid h1 h2 h3 h4, ?_, ?_, ?_, rfl⟩
  · intro docs d s hmem hclh h1 h2 h3 h4
    cases hdd : decodeDocs docs with
    | error e =>
      rw [resolve_decode_error hdd]
      rfl
    | ok cs =>
      obtain ⟨c, hc⟩ := decodeDocs_mem_ok hdd hmem
      obtain ⟨x, hx⟩ := decodeDoc_ok_clh hc
      rw [hclh] at hx
      rw [show decodeOptWith CurrentLineHighlight.fromString (some s) =
            (CurrentLineHighlight.fromString s).map some from rfl,
        clh_fromString_invalid h1 h2 h3 h4] at hx
      simp [Except.map] at hx
  · intro s hs
    rcases hs with rfl | rfl | rfl | rfl
    all_goals exact ⟨_, rfl⟩
  · intro s hs
    rcases hs with rfl | rfl | rfl | rfl
    all_goals exact ⟨_, rfl⟩

/-- Witness for C4 at the concrete spelling "bogus". -/
theorem C4_witness :
    (resolve [{ emptyRaw with current_line_highlight := some "bogus" }]).isOk = false :=
  C4_invalid_enum_rejected.2.1
    [{ emptyRaw with current_line_highlight := some "bogus" }]
    { emptyRaw with current_line_highlight := some "bogus" } "bogus"
    (List.mem_singleton.mpr rfl) rfl (by decide) (by decide) (by decide) (by decide)

/-- Counterexample to claim C5: with an empty merge sequence no document
specifies any field, yet resolution does not succeed with the documented
defaults — it fails with a missing-field error for `cursor_blink`. -/
theorem C5_counterexample :
    resolve [] = .error (.missingField "cursor_blink") := rfl

/-- Claim C5 (amended): the resolver does not materialize the documented
defaults — a field left unspecified by every document makes resolution
fail with a missing-field error (except `double_click_in_multibuffer`,
which resolves to `Select`); defaults are materialized only by passing the
built-in defaults document as the lowest-priority layer, in which case a
field untouched by every higher layer resolves to its documented
default. -/
theorem C5_defaults_from_lowest_layer :
    resolve [] = .error (.missingField "cursor_blink") ∧
    (∀ v : EditorSettings,
      resolveContent { mkContent v with vertical_scroll_margin := none } =
        .error (.missingField "vertical_scroll_margin")) ∧
    resolve [defaultRaw] = .ok defaultSettings ∧
    (∀ (docs : List EditorSettingsContent) (r : EditorSettings),
      (∀ d ∈ docs, d.vertical_scroll_margin = none) →
      resolveContent (mergeList (defaultContent :: docs)) = .ok r →
      r.vertical_scroll_margin = 3) ∧
    (∀ (docs : List EditorSettingsContent) (r : EditorSettings),
      (∀ d ∈ docs, d.double_click_in_multibuffer = none) →
      resolveContent (mergeList (defaultContent :: docs)) = .ok r →
      r.double_click_in_multibuffer = .Select) := by
  refine ⟨rfl, fun v => rfl, rfl, ?_, ?_⟩
  · intro docs r hall h
    obtain ⟨p1, p2, p3, p4, p5, p6, p7, ptb, psb, pgt, p11, p12, p13, p14, p15, p16,
      p17, p18, p19, p20, p21, p22, p23, pjp, p25⟩ := resolveContent_ok h
    have hnil : docs.filterMap (fun c => c.vertical_scroll_margin) = [] :=
      List.filterMap_eq_nil_iff.mpr hall
    have e := merge_proj (fun c => c.vertical_scroll_margin) (fun _ _ => rfl) rfl
      (defaultContent :: docs)
    rw [filterMap_default_head (fun c => c.vertical_scroll_margin) rfl hnil] at e
    rw [e] at p12
    exact (Option.some_injective _ p12).symm
  · intro docs r hall h
    obtain ⟨p1, p2, p3, p4, p5, p6, p7, ptb, psb, pgt, p11, p12, p13, p14, p15, p16,
      p17, p18, p19, p20, p21, p22, p23, pjp, p25⟩ := resolveContent_ok h
    have hnil : docs.filterMap (fun c => c.double_click_in_multibuffer) = [] :=
      List.filterMap_eq_nil_iff.mpr hall
    have e := merge_proj (fun c => c.double_click_in_multibuffer) (fun _ _ => rfl) rfl
      (defaultContent :: docs)
    rw [filterMap_default_head (fun c => c.double_click_in_multibuffer) rfl hnil] at e
    rw [p20, e]
    rfl

/-- Witness for C5 at the concrete sequence [defaults, empty layer]. -/
theorem C5_witness : defaultSettings.vertical_scroll_margin = 3 :=
  C5_defaults_from_lowest_layer.2.2.2.1 [emptyContent] defaultSettings
    (by
      intro d hd
      rw [List.mem_singleton] at hd
      subst hd
      rfl)
    (by rfl)

/-- Claim C6: determinism of resolve — the entry point is a pure function
of the document sequence: two runs on identical input sequences yield
identical results (the same resolved configuration on success, the same
error on failure). -/
theorem C6_determinism (docs1 docs2 : List EditorSettingsRaw) (h : docs1 = docs2) :
    resolve docs1 = resolve docs2 := by
  rw [h]

/-- Witness for C6 at a concrete sequence. -/
theorem C6_witness : resolve [defaultRaw] = resolve [defaultRaw] :=
  C6_determinism [defaultRaw] [defaultRaw] rfl

/-- Claim C7: the Merge Engine never fails — once every document has
decoded, `resolve` is exactly the resolver applied to the total merge fold
(the merge step contributes no failure), and every resolution error is
either a document-decode error or a resolver error. -/
theorem C7_merge_engine_total :
    (∀ (docs : List EditorSettingsRaw) (typed : List EditorSettingsContent),
      decodeDocs docs = .ok typed →
      resolve docs = resolveContent (mergeList typed)) ∧
    (∀ (docs : List EditorSettingsRaw) (e : ResolutionError),
      resolve docs = .error e →
      decodeDocs docs = .error e ∨
      ∃ typed, decodeDocs docs = .ok typed ∧
        resolveContent (mergeList typed) = .error e) := by
  constructor
  · intro docs typed h
    exact resolve_decode_ok h
  · intro docs e h
    cases hdd : decodeDocs docs with
    | error e2 =>
      rw [resolve_decode_error hdd] at h
      injection h with he
      subst he
      exact Or.inl rfl
    | ok typed =>
      refine Or.inr ⟨typed, rfl, ?_⟩
      rw [← resolve_decode_ok hdd]
      exact h

/-- Witness for C7 at the concrete defaults sequence. -/
theorem C7_witness :
    resolve [defaultRaw] = resolveContent (mergeList [defaultContent]) :=
  C7_merge_engine_total.1 [defaultRaw] [defaultContent] (by rfl)

/-- Counterexample to claim C8: `vertical_scroll_margin` is an unbounded
`f32` in the code — a negative value neither fails resolution nor is
clamped; it is adopted unchanged. -/
theorem C8_counterexample :
    resolve [defaultRaw, { emptyRaw with vertical_scroll_margin := some (-1) }] =
      .ok { defaultSettings with vertical_scroll_margin := -1 } := rfl

/-- Claim C8 (amended): domain validation happens only where the unsigned
integer types enforce it — `expand_excerpt_lines` (u32) rejects
out-of-range values at decode time with an error naming the field and
value, and in-range values are adopted unchanged; the float field
`vertical_scroll_margin` has no declared bound, so any value (negative
included) is adopted unchanged. -/
theorem C8_bounded_scalars_amended :
    (∀ q : Rat,
      resolve [defaultRaw, { emptyRaw with vertical_scroll_margin := some q }] =
        .ok { defaultSettings with vertical_scroll_margin := q }) ∧
    decodeUInt "expand_excerpt_lines" 32 (some (-1)) =
      .error (.outOfDomainValue "expand_excerpt_lines" (-1)) ∧
    resolve [defaultRaw, { emptyRaw with expand_excerpt_lines := some (-1) }] =
      .error (.outOfDomainValue "expand_excerpt_lines" (-1)) ∧
    (∀ n : Int, 0 ≤ n → n < 2 ^ 32 →
      decodeUInt "expand_excerpt_lines" 32 (some n) = .ok (some n.toNat)) ∧
    (∀ n : Int, ¬(0 ≤ n ∧ n < 2 ^ 32) →
      decodeUInt "expand_excerpt_lines" 32 (some n) =
        .error (.outOfDomainValue "expand_excerpt_lines" n)) := by
  refine ⟨fun q => rfl, rfl, rfl, ?_, ?_⟩
  · intro n h1 h2
    rw [show decodeUInt "expand_excerpt_lines" 32 (some n) =
      if 0 ≤ n ∧ n < 2 ^ 32 then Except.ok (some n.toNat)
      else Except.error (.outOfDomainValue "expand_excerpt_lines" n) from rfl,
      if_pos ⟨h1, h2⟩]
  · intro n h
    rw [show decodeUInt "expand_excerpt_lines" 32 (some n) =
      if 0 ≤ n ∧ n < 2 ^ 32 then Except.ok (some n.toNat)
      else Except.error (.outOfDomainValue "expand_excerpt_lines" n) from rfl,
      if_neg h]

/-- Witness for C8 at the concrete in-range value 7. -/
theorem C8_witness :
    decodeUInt "expand_excerpt_lines" 32 (some 7) = .ok (some (7 : Int).toNat) :=
  C8_bounded_scalars_amended.2.2.2.1 7 (by decide) (by decide)

/-- Claim C9: the Access Facade accessor `jupyter_enabled` returns exactly
the `enabled` boolean of the installed configuration's jupyter group,
reading the installed value without constructing a new configuration. -/
theorem C9_jupyter_enabled_accessor (installed : EditorSettings) :
    jupyter_enabled installed = installed.jupyter.enabled := rfl

/-- Claim C10: asymmetric missing-field behavior — for every fully
specified document, dropping only `double_click_in_multibuffer` still
resolves successfully to the `Select` default (its `#[serde(default)]`),
while dropping any other top-level field makes resolution fail with a
missing-field error naming that field. -/
theorem C10_double_click_serde_default :
    (∀ v : EditorSettings, resolveContent (mkContent v) = .ok v) ∧
    (∀ v : EditorSettings,
      resolveContent { mkContent v with double_click_in_multibuffer := none } =
        .ok { v with double_click_in_multibuffer := .Select }) ∧
    (∀ v : EditorSettings,
      resolveContent { mkContent v with cursor_blink := none } =
        .error (.missingField "cursor_blink")) ∧
    (∀ v : EditorSettings,
      resolveContent { mkContent v with current_line_highlight := none } =
        .error (.missingField "current_line_highlight")) ∧
    (∀ v : EditorSettings,
      resolveContent { mkContent v with hover_popover_enabled := none } =
        .error (.missingField "hover_popover_enabled")) ∧
    (∀ v : EditorSettings,
      resolveContent { mkContent v with show_completions_on_input := none } =
        .error (.missingField "show_completions_on_input")) ∧
    (∀ v : EditorSettings,
      resolveContent { mkContent v with show_completion_documentation := none } =
        .error (.missingField "show_completion_documentation")) ∧
    (∀ v : EditorSettings,
      resolveContent { mkContent v with
          completion_documentation_secondary_query_debounce := none } =
        .error (.missingField "completion_documentation_secondary_query_debounce")) ∧
    (∀ v : EditorSettings,
      resolveContent { mkContent v with use_on_type_format := none } =
        .error (.missingField "use_on_type_format")) ∧
    (∀ v : EditorSettings,
      resolveContent { mkContent v with toolbar := none } =
        .error (.missingField "toolbar")) ∧
    (∀ v : EditorSettings,
      resolveContent { mkContent v with scrollbar := none } =
        .error (.missingField "scrollbar")) ∧
    (∀ v : EditorSettings,
      resolveContent { mkContent v with gutter := none } =
        .error (.missingField "gutter")) ∧
    (∀ v : EditorSettings,
      resolveContent { mkContent v with scroll_beyond_last_line := none } =
        .error (.missingField "scroll_beyond_last_line")) ∧
    (∀ v : EditorSettings,
      resolveContent { mkContent v with vertical_scroll_margin := none } =
        .error (.missingField "vertical_scroll_margin")) ∧
    (∀ v : EditorSettings,
      resolveContent { mkContent v with scroll_sensitivity := none } =
        .error (.missingField "scroll_sensitivity")) ∧
    (∀ v : EditorSettings,
      resolveContent { mkContent v with relative_line_numbers := none } =
        .error (.missingField "relative_line_numbers")) ∧
    (∀ v : EditorSettings,
      resolveContent { mkContent v with seed_search_query_from_cursor := none } =
        .error (.missingField "seed_search_query_from_cursor")) ∧
    (∀ v : EditorSettings,
      resolveContent { mkContent v with multi_cursor_modifier := none } =
        .error (.missingField "multi_cursor_modifier")) ∧
    (∀ v : EditorSettings,
      resolveContent { mkContent v with redact_private_values := none } =
        .error (.missingField "redact_private_values")) ∧
    (∀ v : EditorSettings,
      resolveContent { mkContent v with expand_excerpt_lines := none } =
        .error (.missingField "expand_excerpt_lines")) ∧
    (∀ v : EditorSettings,
      resolveContent { mkContent v with middle_click_paste := none } =
        .error (.missingField "middle_click_paste")) ∧
    (∀ v : EditorSettings,
      resolveContent { mkContent v with search_wrap := none } =
        .error (.missingField "search_wrap")) ∧
    (∀ v : EditorSettings,
      resolveContent { mkContent v with auto_signature_help := none } =
        .error (.missingField "auto_signature_help")) ∧
    (∀ v : EditorSettings,
      resolveContent { mkContent v with show_signature_help_after_edits := none } =
        .error (.missingField "show_signature_help_after_edits")) ∧
    (∀ v : EditorSettings,
      resolveContent { mkContent v with jupyter := none } =
        .error (.missingField "jupyter")) ∧
    (∀ v : EditorSettings,
      resolveContent { mkContent v with show_diagnostics_inline := none } =
        .error (.missingField "show_diagnostics_inline")) :=
  ⟨fun _ => rfl, fun _ => rfl, fun _ => rfl, fun _ => rfl, fun _ => rfl,
   fun _ => rfl, fun _ => rfl, fun _ => rfl, fun _ => rfl, fun _ => rfl,
   fun _ => rfl, fun _ => rfl, fun _ => rfl, fun _ => rfl, fun _ => rfl,
   fun _ => rfl, fun _ => rfl, fun _ => rfl, fun _ => rfl, fun _ => rfl,
   fun _ => rfl, fun _ => rfl, fun _ => rfl, fun _ => rfl, fun _ => rfl,
   fun _ => rfl⟩

end Zed
